import Mathlib

/-!
Verification development for the low-stock alert endpoint
(`part3_api_implementation.py`).  The external store is modelled as explicit
lists of plain records; the SQL queries of the endpoint become list
filters/joins, the Python dict/fold constructions become Lean folds, and the
floating-point velocity arithmetic is embedded as exact rational arithmetic.
Timestamps are integers (days relative to an arbitrary epoch); the reference
instant `now` and both window lengths are explicit parameters, matching the
configurable module constants of the source.
-/

namespace LowStock

/-- Company record of the external store. -/
structure Company where
  id : Nat
deriving DecidableEq

/-- Warehouse record; belongs to one company. -/
structure Warehouse where
  id : Nat
  company_id : Nat
  name : String
deriving DecidableEq

/-- Product record. -/
structure Product where
  id : Nat
  name : String
  sku : String
deriving DecidableEq

/-- Inventory position: a (product, warehouse) pair with stock and threshold.
Quantities are non-negative integers per the data-model invariant. -/
structure Inventory where
  product_id : Nat
  warehouse_id : Nat
  quantity : Nat
  threshold : Nat
deriving DecidableEq

/-- Order record; belongs to a company. -/
structure Order where
  id : Nat
  company_id : Nat
deriving DecidableEq

/-- Order line item: the sole source of sales history. -/
structure OrderItem where
  order_id : Nat
  product_id : Nat
  quantity : Nat
  created_at : Int
deriving DecidableEq

/-- Supplier record. -/
structure Supplier where
  id : Nat
  name : String
  contact_email : String
deriving DecidableEq

/-- Many-to-many product/supplier link with the primary flag. -/
structure ProductSupplier where
  product_id : Nat
  supplier_id : Nat
  is_primary : Bool
deriving DecidableEq

/-- The external store: one list per table, in the store's row order. -/
structure Store where
  companies : List Company
  warehouses : List Warehouse
  products : List Product
  inventories : List Inventory
  orders : List Order
  order_items : List OrderItem
  suppliers : List Supplier
  product_suppliers : List ProductSupplier

/-- Default averaging window (module constant `SALES_AVG_WINDOW_DAYS = 30`). -/
def SALES_AVG_WINDOW_DAYS : Int := 30

/-- Default activity window (module constant `SALES_ACTIVITY_WINDOW_DAYS = 60`). -/
def SALES_ACTIVITY_WINDOW_DAYS : Int := 60

/-- Primary-key company lookup (`Company.query.get(company_id)`). -/
def find_company (db : Store) (company_id : Nat) : Option Company :=
  db.companies.find? (fun c => c.id == company_id)

/-- Primary-key lookup of a warehouse (the `Inventory → Warehouse` join). -/
def find_warehouse (db : Store) (wid : Nat) : Option Warehouse :=
  db.warehouses.find? (fun w => w.id == wid)

/-- Primary-key lookup of a product (the `Inventory → Product` join). -/
def find_product (db : Store) (pid : Nat) : Option Product :=
  db.products.find? (fun p => p.id == pid)

/-- Primary-key lookup of a supplier (the `ProductSupplier → Supplier` join). -/
def find_supplier (db : Store) (sid : Nat) : Option Supplier :=
  db.suppliers.find? (fun s => s.id == sid)

/-- Company of an order item's parent order (the `OrderItem → Order` join). -/
def order_company (db : Store) (oid : Nat) : Option Nat :=
  (db.orders.find? (fun o => o.id == oid)).map (fun o => o.company_id)

/-- Step 1 of the endpoint: candidate inventories with
`quantity <= threshold`, joined to their product and warehouse and
restricted to warehouses of the requested company, in store row order. -/
def candidate_rows (db : Store) (company_id : Nat) :
    List (Inventory × Product × Warehouse) :=
  db.inventories.filterMap (fun inv =>
    match find_warehouse db inv.warehouse_id, find_product db inv.product_id with
    | some wh, some prod =>
        if wh.company_id = company_id ∧ inv.quantity ≤ inv.threshold then
          some (inv, prod, wh)
        else none
    | _, _ => none)

/-- The candidate products with duplicates removed, as built by the set
comprehension over candidate rows at line 49. -/
def product_ids (db : Store) (company_id : Nat) : List Nat :=
  ((candidate_rows db company_id).map (fun row => row.2.1.id)).dedup

/-- The grouped sales aggregate (steps 2 and 3): summed `OrderItem.quantity`
over items whose parent order belongs to the company, whose product is both
`pid` and a member of `pids`, and created at or after `since`.  A product
with no matching items sums to `0`, which models both absence from the
Python dict and the `.get(pid, 0)` default. -/
def sales_sum (db : Store) (company_id : Nat) (pids : List Nat) (since : Int)
    (pid : Nat) : Nat :=
  ((db.order_items.filter (fun oi =>
      oi.product_id == pid && pids.contains oi.product_id &&
      decide (since ≤ oi.created_at) &&
      order_company db oi.order_id == some company_id)).map
    (fun oi => oi.quantity)).sum

/-- One row of the step-4 supplier query: a product/supplier link joined to
its supplier record. -/
structure SupRow where
  product_id : Nat
  sup_id : Nat
  sup_name : String
  sup_email : String
  is_primary : Bool
deriving DecidableEq

/-- Step 4: the batched supplier query, in store row order, restricted to
the candidate products. -/
def suppliers_q (db : Store) (pids : List Nat) : List SupRow :=
  db.product_suppliers.filterMap (fun ps =>
    if pids.contains ps.product_id then
      (find_supplier db ps.supplier_id).map (fun s =>
        SupRow.mk ps.product_id s.id s.name s.contact_email ps.is_primary)
    else none)

/-- A value of the Python `supplier_map` dict (still carrying `is_primary`). -/
structure SupEntry where
  id : Nat
  name : String
  contact_email : String
  is_primary : Bool
deriving DecidableEq

/-- The dict value built from a supplier query row. -/
def entry_of_row (r : SupRow) : SupEntry :=
  SupEntry.mk r.sup_id r.sup_name r.sup_email r.is_primary

/-- One iteration of the supplier-map loop: insert when the product is
unseen, otherwise replace only when the incoming row is primary and the
retained entry is not. -/
def sup_step (m : Nat → Option SupEntry) (r : SupRow) : Nat → Option SupEntry :=
  fun pid =>
    if pid = r.product_id then
      match m r.product_id with
      | none => some (entry_of_row r)
      | some e =>
          if r.is_primary && !e.is_primary then some (entry_of_row r) else some e
    else m pid

/-- The supplier_map dict: the fold of the loop at lines 83-91 over the
query rows in their given order. -/
def supplier_map (rows : List SupRow) : Nat → Option SupEntry :=
  rows.foldl sup_step (fun _ => none)

/-- First link of `pid` in row order. -/
def first_link (rows : List SupRow) (pid : Nat) : Option SupRow :=
  rows.find? (fun r => r.product_id == pid)

/-- First primary link of `pid` in row order. -/
def first_primary_link (rows : List SupRow) (pid : Nat) : Option SupRow :=
  rows.find? (fun r => r.product_id == pid && r.is_primary)

/-- Spec-side description of supplier resolution, for comparison with the
fold `supplier_map`: the first-seen primary link wins; with no primary, the
first-seen link wins; with no link at all the product is absent. -/
def resolved_supplier (rows : List SupRow) (pid : Nat) : Option SupEntry :=
  match first_primary_link rows pid with
  | some r => some (entry_of_row r)
  | none => (first_link rows pid).map entry_of_row

/-- Average daily sales (line 103): the averaging-window total divided by
the clamped window length, as an exact rational. -/
def avg_daily_sales (total_sold : Nat) (window_days : Int) : ℚ :=
  (total_sold : ℚ) / ((max window_days 1 : Int) : ℚ)

/-- Lines 105-108: `ceil(quantity / avg_daily_sales)` when the average is
positive, `None` otherwise. -/
def days_until_stockout (quantity total_sold : Nat) (window_days : Int) :
    Option Int :=
  if 0 < avg_daily_sales total_sold window_days then
    some (Int.ceil ((quantity : ℚ) / avg_daily_sales total_sold window_days))
  else none

/-- The emitted supplier shape (the `is_primary` flag is dropped). -/
structure SupplierInfo where
  id : Nat
  name : String
  contact_email : String
deriving DecidableEq

/-- One emitted alert record (lines 115-125). -/
structure Alert where
  product_id : Nat
  product_name : String
  sku : String
  warehouse_id : Nat
  warehouse_name : String
  current_stock : Nat
  threshold : Nat
  days_until_stockout : Option Int
  supplier : Option SupplierInfo
deriving DecidableEq

/-- The alert record assembled for an eligible candidate row. -/
def assemble_alert (avg_map : Nat → Nat) (sup_map : Nat → Option SupEntry)
    (avg_window : Int) (row : Inventory × Product × Warehouse) : Alert :=
  { product_id := row.2.1.id
    product_name := row.2.1.name
    sku := row.2.1.sku
    warehouse_id := row.2.2.id
    warehouse_name := row.2.2.name
    current_stock := row.1.quantity
    threshold := row.1.threshold
    days_until_stockout :=
      days_until_stockout row.1.quantity (avg_map row.2.1.id) avg_window
    supplier :=
      (sup_map row.2.1.id).map (fun s => SupplierInfo.mk s.id s.name s.contact_email) }

/-- The loop body at lines 94-125: skip the candidate when its
activity-window sum is zero, otherwise emit the assembled alert. -/
def mk_alert (recent_map avg_map : Nat → Nat) (sup_map : Nat → Option SupEntry)
    (avg_window : Int) (row : Inventory × Product × Warehouse) : Option Alert :=
  if recent_map row.2.1.id = 0 then none
  else some (assemble_alert avg_map sup_map avg_window row)

/-- The alert list built from an explicit product-id list `pids` (the Python
set iteration order is unspecified, so it is a parameter here). -/
def alerts_with_pids (db : Store) (company_id : Nat)
    (now avg_window activity_window : Int) (pids : List Nat) : List Alert :=
  (candidate_rows db company_id).filterMap
    (mk_alert (sales_sum db company_id pids (now - activity_window))
      (sales_sum db company_id pids (now - avg_window))
      (supplier_map (suppliers_q db pids))
      avg_window)

/-- The alert list of the endpoint, with `pids` instantiated to the
deduplicated candidate product ids. -/
def alerts_of (db : Store) (company_id : Nat)
    (now avg_window activity_window : Int) : List Alert :=
  alerts_with_pids db company_id now avg_window activity_window
    (product_ids db company_id)

/-- Endpoint outcome: the 404 company-not-found response, or the 200
response carrying the alert list and its count. -/
inductive AlertResult where
  | companyNotFound : AlertResult
  | ok : List Alert → Nat → AlertResult
deriving DecidableEq

/-- The endpoint `low_stock_alerts` (lines 15-127): validate the company,
return the empty success early when there are no candidates, otherwise
return the assembled alerts with their count. -/
def low_stock_alerts (db : Store) (company_id : Nat)
    (now avg_window activity_window : Int) : AlertResult :=
  match find_company db company_id with
  | none => AlertResult.companyNotFound
  | some _ =>
    if candidate_rows db company_id = [] then AlertResult.ok [] 0
    else
      AlertResult.ok (alerts_of db company_id now avg_window activity_window)
        (alerts_of db company_id now avg_window activity_window).length

/-- What the supplier fold yields for `pid` as a function of the running
choice `cur`: a retained primary entry is final; a retained non-primary is
displaced only by the first primary still to come; with nothing retained the
resolution rule applies to the remaining rows. -/
def sup_fold_spec (rows : List SupRow) (pid : Nat) (cur : Option SupEntry) :
    Option SupEntry :=
  match cur with
  | none => resolved_supplier rows pid
  | some e =>
      if e.is_primary then some e
      else
        match first_primary_link rows pid with
        | some r => some (entry_of_row r)
        | none => some e

/-- Concrete store: company 1, one warehouse, product 1 (stock 5,
threshold 10) with 20 units sold at time 90, product 2 (stock 3,
threshold 3) with no sales, no supplier links. -/
def exStore : Store where
  companies := [⟨1⟩]
  warehouses := [⟨1, 1, "W1"⟩]
  products := [⟨1, "P1", "SKU1"⟩, ⟨2, "P2", "SKU2"⟩]
  inventories := [⟨1, 1, 5, 10⟩, ⟨2, 1, 3, 3⟩]
  orders := [⟨1, 1⟩]
  order_items := [⟨1, 1, 20, 90⟩]
  suppliers := []
  product_suppliers := []

/-- The single alert emitted for `exStore` at `now = 100` with the default
windows: product 1 with `ceil(5 / (20/30)) = 8` days and no supplier. -/
def exAlert : Alert :=
  ⟨1, "P1", "SKU1", 1, "W1", 5, 10, some 8, none⟩

/-- Concrete store: product 1 held in two warehouses of company 1 with
different stock levels (1 and 4), 30 units sold at time 90, and one primary
supplier link. -/
def exStore2 : Store where
  companies := [⟨1⟩]
  warehouses := [⟨1, 1, "W1"⟩, ⟨2, 1, "W2"⟩]
  products := [⟨1, "P1", "SKU1"⟩]
  inventories := [⟨1, 1, 1, 10⟩, ⟨1, 2, 4, 10⟩]
  orders := [⟨1, 1⟩]
  order_items := [⟨1, 1, 30, 90⟩]
  suppliers := [⟨7, "S7", "s7@example.com"⟩]
  product_suppliers := [⟨1, 7, true⟩]

/-- First alert emitted for `exStore2`: warehouse 1, stock 1, one day left. -/
def exAlertA : Alert :=
  ⟨1, "P1", "SKU1", 1, "W1", 1, 10, some 1, some ⟨7, "S7", "s7@example.com"⟩⟩

/-- Second alert emitted for `exStore2`: warehouse 2, stock 4, four days
left, same supplier. -/
def exAlertB : Alert :=
  ⟨1, "P1", "SKU1", 2, "W2", 4, 10, some 4, some ⟨7, "S7", "s7@example.com"⟩⟩

/-! Projector lemmas -/

theorem clamped_window_pos (window_days : Int) : (0 : Int) < max window_days 1 :=
  lt_of_lt_of_le one_pos (le_max_right window_days 1)

theorem avg_daily_sales_pos_iff (total_sold : Nat) (window_days : Int) :
    0 < avg_daily_sales total_sold window_days ↔ 0 < total_sold := by
  have hd : (0 : ℚ) < ((max window_days 1 : Int) : ℚ) := by
    exact_mod_cast clamped_window_pos window_days
  rw [avg_daily_sales, div_pos_iff]
  constructor
  · rintro (⟨h1, _⟩ | ⟨_, h2⟩)
    · exact_mod_cast h1
    · exact absurd h2 (not_lt_of_lt hd)
  · intro h
    exact Or.inl ⟨by exact_mod_cast h, hd⟩

theorem days_until_stockout_eq_none_iff (quantity total_sold : Nat)
    (window_days : Int) :
    days_until_stockout quantity total_sold window_days = none ↔ total_sold = 0 := by
  rw [days_until_stockout]
  by_cases h : 0 < avg_daily_sales total_sold window_days
  · simp only [if_pos h]
    have := (avg_daily_sales_pos_iff total_sold window_days).mp h
    simp [Nat.pos_iff_ne_zero.mp this]
  · simp only [if_neg h]
    have := mt (avg_daily_sales_pos_iff total_sold window_days).mpr h
    simp [Nat.eq_zero_of_not_pos (by simpa using this)]

theorem days_until_stockout_of_ne (quantity total_sold : Nat) (window_days : Int)
    (ht : total_sold ≠ 0) (hw : 1 ≤ window_days) :
    days_until_stockout quantity total_sold window_days =
      some (Int.ceil ((quantity : ℚ) / ((total_sold : ℚ) / (window_days : ℚ)))) := by
  have hpos : 0 < avg_daily_sales total_sold window_days :=
    (avg_daily_sales_pos_iff total_sold window_days).mpr (Nat.pos_of_ne_zero ht)
  rw [days_until_stockout, if_pos hpos, avg_daily_sales, max_eq_left hw]

theorem days_until_stockout_nonneg (quantity total_sold : Nat) (window_days : Int)
    (ht : total_sold ≠ 0) :
    ∃ d, days_until_stockout quantity total_sold window_days = some d ∧ 0 ≤ d := by
  have hpos : 0 < avg_daily_sales total_sold window_days :=
    (avg_daily_sales_pos_iff total_sold window_days).mpr (Nat.pos_of_ne_zero ht)
  refine ⟨Int.ceil ((quantity : ℚ) / avg_daily_sales total_sold window_days),
    by rw [days_until_stockout, if_pos hpos], ?_⟩
  have hq : (0 : ℚ) ≤ (quantity : ℚ) / avg_daily_sales total_sold window_days :=
    div_nonneg (Nat.cast_nonneg quantity) (le_of_lt hpos)
  exact Int.ceil_nonneg hq

/-! Membership characterizations -/

theorem mem_candidate_rows (db : Store) (company_id : Nat)
    (row : Inventory × Product × Warehouse)
    (h : row ∈ candidate_rows db company_id) :
    row.2.2.company_id = company_id ∧ row.1.quantity ≤ row.1.threshold := by
  simp only [candidate_rows, List.mem_filterMap] at h
  obtain ⟨inv, _, hf⟩ := h
  rcases hw : find_warehouse db inv.warehouse_id with _ | wh <;> rw [hw] at hf
  · simp at hf
  rcases hp : find_product db inv.product_id with _ | prod <;> rw [hp] at hf
  · simp at hf
  change (if wh.company_id = company_id ∧ inv.quantity ≤ inv.threshold then
    some (inv, prod, wh) else none) = some row at hf
  by_cases hc : wh.company_id = company_id ∧ inv.quantity ≤ inv.threshold
  · rw [if_pos hc] at hf
    cases hf
    exact hc
  · rw [if_neg hc] at hf
    cases hf

theorem mem_alerts_with_pids (db : Store) (company_id : Nat)
    (now avg_window activity_window : Int) (pids : List Nat) (a : Alert)
    (h : a ∈ alerts_with_pids db company_id now avg_window activity_window pids) :
    ∃ row ∈ candidate_rows db company_id,
      sales_sum db company_id pids (now - activity_window) row.2.1.id ≠ 0 ∧
      a = assemble_alert (sales_sum db company_id pids (now - avg_window))
            (supplier_map (suppliers_q db pids)) avg_window row := by
  simp only [alerts_with_pids, List.mem_filterMap] at h
  obtain ⟨row, hrow, hf⟩ := h
  rw [mk_alert] at hf
  by_cases hz : sales_sum db company_id pids (now - activity_window) row.2.1.id = 0
  · rw [if_pos hz] at hf
    cases hf
  · rw [if_neg hz] at hf
    cases hf
    exact ⟨row, hrow, hz, rfl⟩

/-! List-shape lemmas -/

theorem filterMap_gate {α β : Type} (l : List α) (p : α → Prop) [DecidablePred p]
    (g : α → β) :
    l.filterMap (fun x => if p x then none else some (g x)) =
      (l.filter (fun x => decide ¬p x)).map g := by
  induction l with
  | nil => rfl
  | cons a t ih =>
      by_cases h : p a <;> simp [List.filterMap_cons, List.filter_cons, h, ih]

/-! Supplier-fold characterization -/

theorem first_primary_link_cons_pos (r : SupRow) (rs : List SupRow) (pid : Nat)
    (h1 : r.product_id = pid) (h2 : r.is_primary = true) :
    first_primary_link (r :: rs) pid = some r := by
  simp [first_primary_link, h1, h2]

theorem first_primary_link_cons_neg (r : SupRow) (rs : List SupRow) (pid : Nat)
    (h : r.product_id ≠ pid ∨ r.is_primary = false) :
    first_primary_link (r :: rs) pid = first_primary_link rs pid := by
  rcases h with h | h <;> simp [first_primary_link, h]

theorem first_link_cons_pos (r : SupRow) (rs : List SupRow) (pid : Nat)
    (h : r.product_id = pid) : first_link (r :: rs) pid = some r := by
  simp [first_link, h]

theorem first_link_cons_neg (r : SupRow) (rs : List SupRow) (pid : Nat)
    (h : r.product_id ≠ pid) : first_link (r :: rs) pid = first_link rs pid := by
  simp [first_link, h]

theorem foldl_sup_step (rows : List SupRow) :
    ∀ (m : Nat → Option SupEntry) (pid : Nat),
      (rows.foldl sup_step m) pid = sup_fold_spec rows pid (m pid) := by
  induction rows with
  | nil =>
      intro m pid
      rw [List.foldl_nil]
      cases hm : m pid with
      | none => rfl
      | some e => simp [sup_fold_spec, first_primary_link]
  | cons r rs ih =>
      intro m pid
      rw [List.foldl_cons, ih]
      by_cases hp : pid = r.product_id
      · rw [hp, sup_step, if_pos rfl]
        cases hm : m r.product_id with
        | none =>
            by_cases hr : r.is_primary = true
            · simp [sup_fold_spec, resolved_supplier, entry_of_row, hr,
                first_primary_link_cons_pos r rs r.product_id rfl hr]
            · have h1 := first_primary_link_cons_neg r rs r.product_id
                (Or.inr (by simpa using hr))
              have h2 := first_link_cons_pos r rs r.product_id rfl
              cases hf : first_primary_link rs r.product_id with
              | none =>
                  simp [sup_fold_spec, resolved_supplier, entry_of_row, hr,
                    h1, h2, hf]
              | some r' =>
                  simp [sup_fold_spec, resolved_supplier, entry_of_row, hr,
                    h1, h2, hf]
        | some e =>
            by_cases he : e.is_primary = true
            · simp [sup_fold_spec, he]
            · by_cases hr : r.is_primary = true
              · simp [sup_fold_spec, entry_of_row, he, hr,
                  first_primary_link_cons_pos r rs r.product_id rfl hr]
              · have h1 := first_primary_link_cons_neg r rs r.product_id
                  (Or.inr (by simpa using hr))
                simp [sup_fold_spec, he, hr, h1]
      · rw [sup_step, if_neg hp]
        have h1 := first_primary_link_cons_neg r rs pid
          (Or.inl (fun hx => hp hx.symm))
        have h2 := first_link_cons_neg r rs pid (fun hx => hp hx.symm)
        cases hm : m pid with
        | none => simp [sup_fold_spec, resolved_supplier, h1, h2]
        | some e =>
            by_cases he : e.is_primary = true
            · simp [sup_fold_spec, he]
            · simp [sup_fold_spec, he, h1]

/-! Evaluation lemmas for the concrete stores -/

theorem ex_days : days_until_stockout 5 20 30 = some 8 := by
  rw [days_until_stockout, avg_daily_sales]
  norm_num
  rw [Int.ceil_eq_iff]
  norm_num

theorem ex_alerts : alerts_of exStore 1 100 30 60 = [exAlert] := by
  have h1 : candidate_rows exStore 1 =
      [(⟨1, 1, 5, 10⟩, ⟨1, "P1", "SKU1"⟩, ⟨1, 1, "W1"⟩),
       (⟨2, 1, 3, 3⟩, ⟨2, "P2", "SKU2"⟩, ⟨1, 1, "W1"⟩)] := by decide
  have hp : product_ids exStore 1 = [1, 2] := by decide
  have hs1 : sales_sum exStore 1 [1, 2] 40 1 = 20 := by decide
  have hs2 : sales_sum exStore 1 [1, 2] 40 2 = 0 := by decide
  have ha1 : sales_sum exStore 1 [1, 2] 70 1 = 20 := by decide
  have hq : suppliers_q exStore [1, 2] = [] := by decide
  rw [alerts_of, alerts_with_pids, hp, h1]
  norm_num [List.filterMap_cons, mk_alert, assemble_alert, hs1, hs2, ha1, hq,
    supplier_map, ex_days, exAlert]

theorem ex2_days_one : days_until_stockout 1 30 30 = some 1 := by
  rw [days_until_stockout, avg_daily_sales]
  norm_num

theorem ex2_days_four : days_until_stockout 4 30 30 = some 4 := by
  rw [days_until_stockout, avg_daily_sales]
  norm_num

theorem ex2_alerts : alerts_of exStore2 1 100 30 60 = [exAlertA, exAlertB] := by
  have h1 : candidate_rows exStore2 1 =
      [(⟨1, 1, 1, 10⟩, ⟨1, "P1", "SKU1"⟩, ⟨1, 1, "W1"⟩),
       (⟨1, 2, 4, 10⟩, ⟨1, "P1", "SKU1"⟩, ⟨2, 1, "W2"⟩)] := by decide
  have hp : product_ids exStore2 1 = [1] := by decide
  have hs1 : sales_sum exStore2 1 [1] 40 1 = 30 := by decide
  have ha1 : sales_sum exStore2 1 [1] 70 1 = 30 := by decide
  have hsup : supplier_map (suppliers_q exStore2 [1]) 1 =
      some ⟨7, "S7", "s7@example.com", true⟩ := by decide
  rw [alerts_of, alerts_with_pids, hp, h1]
  norm_num [List.filterMap_cons, mk_alert, assemble_alert, hs1, ha1, hsup,
    ex2_days_one, ex2_days_four, exAlertA, exAlertB]

/-! Congruence in the product-id set -/

theorem contains_congr (pids₁ pids₂ : List Nat)
    (h : ∀ x, x ∈ pids₁ ↔ x ∈ pids₂) (x : Nat) :
    pids₁.contains x = pids₂.contains x := by
  simp only [List.contains, List.elem_eq_mem, decide_eq_decide]
  exact h x

theorem sales_sum_congr (db : Store) (company_id : Nat) (pids₁ pids₂ : List Nat)
    (h : ∀ x, x ∈ pids₁ ↔ x ∈ pids₂) (since : Int) (pid : Nat) :
    sales_sum db company_id pids₁ since pid =
      sales_sum db company_id pids₂ since pid := by
  rw [sales_sum, sales_sum]
  congr 1
  congr 1
  apply List.filter_congr
  intro oi _
  rw [contains_congr pids₁ pids₂ h oi.product_id]

theorem suppliers_q_congr (db : Store) (pids₁ pids₂ : List Nat)
    (h : ∀ x, x ∈ pids₁ ↔ x ∈ pids₂) :
    suppliers_q db pids₁ = suppliers_q db pids₂ := by
  rw [suppliers_q, suppliers_q]
  apply List.filterMap_congr
  intro ps _
  rw [contains_congr pids₁ pids₂ h ps.product_id]

/-! Claim theorems -/

/-- Claim C2: supplier resolution is the deterministic fold of
`sup_step` over the links in their given order, and it equals the
first-seen-primary-else-first-seen rule: a primary after a non-primary
overrides it, two primaries resolve to the first seen, and a non-primary
never displaces an earlier non-primary. -/
theorem C2_supplier_resolution (rows : List SupRow) (pid : Nat) :
    supplier_map rows pid = resolved_supplier rows pid := by
  rw [supplier_map, foldl_sup_step rows (fun _ => none) pid]
  rfl

/-- Claim C8: the projector's division is guarded: the clamped window
`max window_days 1` is positive, hence a non-zero rational denominator,
and `avg_daily_sales` is the genuine quotient by it. -/
theorem C8_division_guarded (total_sold : Nat) (window_days : Int) :
    (0 : Int) < max window_days 1 ∧
    ((max window_days 1 : Int) : ℚ) ≠ 0 ∧
    avg_daily_sales total_sold window_days * ((max window_days 1 : Int) : ℚ) =
      (total_sold : ℚ) := by
  have hq : (0 : ℚ) < ((max window_days 1 : Int) : ℚ) := by
    exact_mod_cast clamped_window_pos window_days
  refine ⟨clamped_window_pos window_days, ne_of_gt hq, ?_⟩
  rw [avg_daily_sales]
  exact div_mul_cancel₀ _ (ne_of_gt hq)

/-- Claim C4: every emitted alert comes from a candidate position, so its
current stock is at or below its threshold; a position with quantity
strictly above its threshold never appears. -/
theorem C4_low_positions_only (db : Store) (company_id : Nat)
    (now avg_window activity_window : Int) (a : Alert)
    (h : a ∈ alerts_of db company_id now avg_window activity_window) :
    a.current_stock ≤ a.threshold := by
  obtain ⟨row, hrow, _, hae⟩ := mem_alerts_with_pids db company_id now
    avg_window activity_window (product_ids db company_id) a h
  have hcand := mem_candidate_rows db company_id row hrow
  have h1 : a.current_stock = row.1.quantity := by rw [hae]; rfl
  have h2 : a.threshold = row.1.threshold := by rw [hae]; rfl
  rw [h1, h2]
  exact hcand.2

/-- Witness for C4 at the concrete store: the emitted alert has stock 5 at
threshold 10. -/
theorem C4_low_positions_only_witness :
    exAlert ∈ alerts_of exStore 1 100 30 60 ∧
    exAlert.current_stock ≤ exAlert.threshold :=
  ⟨by rw [ex_alerts]; exact List.mem_singleton_self exAlert,
   C4_low_positions_only exStore 1 100 30 60 exAlert
     (by rw [ex_alerts]; exact List.mem_singleton_self exAlert)⟩

/-- Claim C3: a product whose activity-window sum is zero never appears in
the emitted alert list, regardless of the position's stock level. -/
theorem C3_zero_activity_excluded (db : Store) (company_id : Nat)
    (now avg_window activity_window : Int) (pid : Nat)
    (h : sales_sum db company_id (product_ids db company_id)
      (now - activity_window) pid = 0)
    (a : Alert) (ha : a ∈ alerts_of db company_id now avg_window activity_window) :
    a.product_id ≠ pid := by
  obtain ⟨row, _, hz, hae⟩ := mem_alerts_with_pids db company_id now
    avg_window activity_window (product_ids db company_id) a ha
  have hpid : a.product_id = row.2.1.id := by rw [hae]; rfl
  intro hc
  apply hz
  rw [hpid.symm.trans hc]
  exact h

/-- Witness for C3 at the concrete store: product 2 (stock 3 = threshold 3)
has zero activity-window sales and the emitted alert is not for it. -/
theorem C3_zero_activity_excluded_witness :
    sales_sum exStore 1 (product_ids exStore 1) (100 - 60) 2 = 0 ∧
    exAlert.product_id ≠ 2 :=
  ⟨by decide,
   C3_zero_activity_excluded exStore 1 100 30 60 2 (by decide) exAlert
     (by rw [ex_alerts]; exact List.mem_singleton_self exAlert)⟩

/-- Claim C7: the emitted list is exactly the candidate fetch order with the
ineligible candidates removed and each survivor mapped to its alert record;
no reordering or secondary sort happens. -/
theorem C7_order_preserved (db : Store) (company_id : Nat)
    (now avg_window activity_window : Int) :
    alerts_of db company_id now avg_window activity_window =
      ((candidate_rows db company_id).filter (fun row =>
          decide ¬(sales_sum db company_id (product_ids db company_id)
            (now - activity_window) row.2.1.id = 0))).map
        (assemble_alert
          (sales_sum db company_id (product_ids db company_id) (now - avg_window))
          (supplier_map (suppliers_q db (product_ids db company_id)))
          avg_window) := by
  rw [alerts_of, alerts_with_pids]
  exact filterMap_gate (candidate_rows db company_id)
    (fun row => sales_sum db company_id (product_ids db company_id)
      (now - activity_window) row.2.1.id = 0)
    (assemble_alert
      (sales_sum db company_id (product_ids db company_id) (now - avg_window))
      (supplier_map (suppliers_q db (product_ids db company_id)))
      avg_window)

/-- Claim C5: a company identifier resolving to no stored company yields the
distinct company-not-found outcome, never a success (empty or otherwise). -/
theorem C5_company_not_found (db : Store) (company_id : Nat)
    (now avg_window activity_window : Int)
    (h : ∀ c ∈ db.companies, c.id ≠ company_id) :
    low_stock_alerts db company_id now avg_window activity_window =
      AlertResult.companyNotFound ∧
    ∀ al n, low_stock_alerts db company_id now avg_window activity_window ≠
      AlertResult.ok al n := by
  have hf : find_company db company_id = none := by
    rw [find_company, List.find?_eq_none]
    intro c hc
    simp only [beq_iff_eq]
    exact h c hc
  constructor
  · rw [low_stock_alerts, hf]
  · intro al n
    rw [low_stock_alerts, hf]
    simp

/-- Witness for C5: company 99 does not exist in the concrete store. -/
theorem C5_company_not_found_witness :
    low_stock_alerts exStore 99 100 30 60 = AlertResult.companyNotFound :=
  (C5_company_not_found exStore 99 100 30 60 (by decide)).1

/-- Claim C6: on an existing company the endpoint always succeeds with the
alert list and its count; when no candidate passes the activity gate (in
particular when there are no candidates at all) the list is empty, and a
missing supplier never causes an error. -/
theorem C6_empty_success (db : Store) (company_id : Nat)
    (now avg_window activity_window : Int)
    (h : ∃ c ∈ db.companies, c.id = company_id) :
    low_stock_alerts db company_id now avg_window activity_window =
      AlertResult.ok (alerts_of db company_id now avg_window activity_window)
        (alerts_of db company_id now avg_window activity_window).length ∧
    ((∀ row ∈ candidate_rows db company_id,
        sales_sum db company_id (product_ids db company_id)
          (now - activity_window) row.2.1.id = 0) →
      alerts_of db company_id now avg_window activity_window = []) := by
  obtain ⟨c, hc, hid⟩ := h
  have hsome : (List.find? (fun c => c.id == company_id) db.companies).isSome := by
    rw [List.find?_isSome]
    exact ⟨c, hc, by simp [hid]⟩
  obtain ⟨c', hc'⟩ := Option.isSome_iff_exists.mp hsome
  have hf : find_company db company_id = some c' := hc'
  constructor
  · simp only [low_stock_alerts, hf]
    by_cases hcand : candidate_rows db company_id = []
    · rw [if_pos hcand]
      have hnil : alerts_of db company_id now avg_window activity_window = [] := by
        rw [alerts_of, alerts_with_pids, hcand]
        rfl
      rw [hnil]
      rfl
    · rw [if_neg hcand]
  · intro hall
    rw [alerts_of, alerts_with_pids, List.filterMap_eq_nil_iff]
    intro row hrow
    rw [mk_alert, if_pos (hall row hrow)]

/-- Witness for C6: company 1 exists in the concrete store and the endpoint
returns the success outcome carrying the list and its count. -/
theorem C6_empty_success_witness :
    low_stock_alerts exStore 1 100 30 60 =
      AlertResult.ok (alerts_of exStore 1 100 30 60)
        (alerts_of exStore 1 100 30 60).length :=
  (C6_empty_success exStore 1 100 30 60 ⟨⟨1⟩, by decide, rfl⟩).1

/-- Claim C1: an emitted alert's days-until-stockout is null exactly when
the product's averaging-window sum is zero; otherwise (for a positive
configured window) it equals the ceiling of current stock over the daily
rate `sum / window`, and it is non-negative. -/
theorem C1_days_until_stockout_spec (db : Store) (company_id : Nat)
    (now avg_window activity_window : Int) (a : Alert)
    (hw : 1 ≤ avg_window)
    (ha : a ∈ alerts_of db company_id now avg_window activity_window) :
    (a.days_until_stockout = none ↔
      sales_sum db company_id (product_ids db company_id)
        (now - avg_window) a.product_id = 0) ∧
    (sales_sum db company_id (product_ids db company_id)
        (now - avg_window) a.product_id ≠ 0 →
      a.days_until_stockout =
        some (Int.ceil ((a.current_stock : ℚ) /
          ((sales_sum db company_id (product_ids db company_id)
              (now - avg_window) a.product_id : ℚ) / (avg_window : ℚ)))) ∧
      ∃ d, a.days_until_stockout = some d ∧ 0 ≤ d) := by
  obtain ⟨row, _, _, hae⟩ := mem_alerts_with_pids db company_id now
    avg_window activity_window (product_ids db company_id) a ha
  have hpid : a.product_id = row.2.1.id := by rw [hae]; rfl
  have hstock : a.current_stock = row.1.quantity := by rw [hae]; rfl
  have hdays : a.days_until_stockout =
      days_until_stockout row.1.quantity
        (sales_sum db company_id (product_ids db company_id)
          (now - avg_window) row.2.1.id) avg_window := by
    rw [hae]; rfl
  rw [hpid, hstock, hdays]
  constructor
  · exact days_until_stockout_eq_none_iff _ _ _
  · intro ht
    exact ⟨days_until_stockout_of_ne _ _ _ ht hw,
      days_until_stockout_nonneg _ _ _ ht⟩

/-- Witness for C1 at the concrete store: window 30 is positive and the
emitted alert's 8-day projection matches `ceil(5 / (20/30))`. -/
theorem C1_days_until_stockout_witness :
    (1 : Int) ≤ 30 ∧
    (exAlert.days_until_stockout = none ↔
      sales_sum exStore 1 (product_ids exStore 1) (100 - 30)
        exAlert.product_id = 0) :=
  ⟨by decide,
   (C1_days_until_stockout_spec exStore 1 100 30 60 exAlert (by decide)
     (by rw [ex_alerts]; exact List.mem_singleton_self exAlert)).1⟩

/-- Claim C9: the computation is deterministic; in particular the only
order-unstable intermediate, the Python set of candidate product ids, does
not affect the output: any two product-id lists with the same members yield
identical alert lists. -/
theorem C9_deterministic (db : Store) (company_id : Nat)
    (now avg_window activity_window : Int) (pids₁ pids₂ : List Nat)
    (h : ∀ x, x ∈ pids₁ ↔ x ∈ pids₂) :
    alerts_with_pids db company_id now avg_window activity_window pids₁ =
      alerts_with_pids db company_id now avg_window activity_window pids₂ := by
  have e1 : sales_sum db company_id pids₁ (now - activity_window) =
      sales_sum db company_id pids₂ (now - activity_window) :=
    funext (sales_sum_congr db company_id pids₁ pids₂ h (now - activity_window))
  have e2 : sales_sum db company_id pids₁ (now - avg_window) =
      sales_sum db company_id pids₂ (now - avg_window) :=
    funext (sales_sum_congr db company_id pids₁ pids₂ h (now - avg_window))
  have e3 := suppliers_q_congr db pids₁ pids₂ h
  rw [alerts_with_pids, alerts_with_pids, e1, e2, e3]

/-- Witness for C9: permuting and duplicating the product-id list leaves the
concrete alert list unchanged. -/
theorem C9_deterministic_witness :
    alerts_with_pids exStore 1 100 30 60 [1, 2] =
      alerts_with_pids exStore 1 100 30 60 [2, 1, 1] :=
  C9_deterministic exStore 1 100 30 60 [1, 2] [2, 1, 1]
    (by intro x; simp; tauto)

/-- Claim C10 as frozen is false: two alerts for the same product in
different warehouses carry the same supplier but may carry different
days-until-stockout values, because the projection divides each position's
own stock by the shared per-product rate.  Concretely, stocks 1 and 4 at a
rate of one unit per day project 1 and 4 days. -/
theorem C10_counterexample :
    exAlertA ∈ alerts_of exStore2 1 100 30 60 ∧
    exAlertB ∈ alerts_of exStore2 1 100 30 60 ∧
    exAlertA.product_id = exAlertB.product_id ∧
    exAlertA.days_until_stockout ≠ exAlertB.days_until_stockout := by
  refine ⟨?_, ?_, rfl, by decide⟩
  · rw [ex2_alerts]
    exact List.mem_cons_self _ _
  · rw [ex2_alerts]
    exact List.mem_cons_of_mem _ (List.mem_singleton_self _)

/-- Claim C10 (amended): two alerts of one request sharing a product carry
equal supplier info and equally-null projections (both null iff the shared
averaging-window sum is zero); the numeric day counts coincide whenever the
two positions also hold equal current stock, but may differ otherwise. -/
theorem C10_per_product_maps (db : Store) (company_id : Nat)
    (now avg_window activity_window : Int) (a b : Alert)
    (ha : a ∈ alerts_of db company_id now avg_window activity_window)
    (hb : b ∈ alerts_of db company_id now avg_window activity_window)
    (hpid : a.product_id = b.product_id) :
    a.supplier = b.supplier ∧
    (a.days_until_stockout = none ↔ b.days_until_stockout = none) ∧
    (a.current_stock = b.current_stock →
      a.days_until_stockout = b.days_until_stockout) := by
  obtain ⟨ra, _, _, haa⟩ := mem_alerts_with_pids db company_id now
    avg_window activity_window (product_ids db company_id) a ha
  obtain ⟨rb, _, _, hbb⟩ := mem_alerts_with_pids db company_id now
    avg_window activity_window (product_ids db company_id) b hb
  have hpa : a.product_id = ra.2.1.id := by rw [haa]; rfl
  have hpb : b.product_id = rb.2.1.id := by rw [hbb]; rfl
  have hid : ra.2.1.id = rb.2.1.id := by rw [← hpa, ← hpb, hpid]
  refine ⟨?_, ?_, ?_⟩
  · rw [haa, hbb]
    simp [assemble_alert, hid]
  · rw [haa, hbb]
    simp only [assemble_alert]
    rw [days_until_stockout_eq_none_iff, days_until_stockout_eq_none_iff, hid]
  · intro hstock
    have hsa : a.current_stock = ra.1.quantity := by rw [haa]; rfl
    have hsb : b.current_stock = rb.1.quantity := by rw [hbb]; rfl
    have hq : ra.1.quantity = rb.1.quantity := by rw [← hsa, ← hsb, hstock]
    rw [haa, hbb]
    simp [assemble_alert, hid, hq]

/-- Witness for the amended C10 at the two-warehouse store: the two alerts
for product 1 share their supplier and their projections are equally
non-null. -/
theorem C10_per_product_maps_witness :
    exAlertA.supplier = exAlertB.supplier ∧
    (exAlertA.days_until_stockout = none ↔ exAlertB.days_until_stockout = none) ∧
    (exAlertA.current_stock = exAlertB.current_stock →
      exAlertA.days_until_stockout = exAlertB.days_until_stockout) :=
  C10_per_product_maps exStore2 1 100 30 60 exAlertA exAlertB
    (by rw [ex2_alerts]; exact List.mem_cons_self _ _)
    (by rw [ex2_alerts]; exact List.mem_cons_of_mem _ (List.mem_singleton_self _))
    rfl

end LowStock
